import Mathlib

/-!
Verification development for the `garmer` Garmin Connect client library.

The Python source is shallowly embedded: raw JSON server responses become the
inductive `JValue`; Python exceptions become the inductive `PyError` together
with an explicit class table mirroring the exception hierarchy declared in
`src/garmer/auth.py` (and the external `garth` exception classes it imports);
functions that can raise return `Except PyError _`; network effects are
passed in explicitly as `Except`-valued outcomes.  Entity classes
(`src/garmer/models/*.py`, pydantic models) become Lean structures with the
same fields and defaults, and their classmethod parsers and `to_dict`
serializers are translated statement by statement.
-/

namespace Garmer

/-- A JSON-like Python value, as handled by the response normalizers: Python
`None`, `bool`, `int`, `float`, `str`, `list`, `dict` (string keys).  `int`
and `float` are kept distinct, as in Python.  Floats are modelled as exact
rationals. -/
inductive JValue where
  | null
  | bool (b : Bool)
  | int (n : Int)
  | float (q : Rat)
  | str (s : String)
  | arr (xs : List JValue)
  | obj (fields : List (String × JValue))
  deriving Inhabited

/-- Python truthiness of a `JValue` (`if x:`). -/
def JValue.truthy : JValue → Bool
  | .null => false
  | .bool b => b
  | .int n => n != 0
  | .float q => q != 0
  | .str s => s != ""
  | .arr xs => !xs.isEmpty
  | .obj fs => !fs.isEmpty

/-- A Python dict body: association list with unique string keys. -/
abbrev JObj := List (String × JValue)

/-- `d.get(k, default)` on a dict. -/
def dictGetD (fs : JObj) (k : String) (dflt : JValue) : JValue :=
  (fs.lookup k).getD dflt

/-- `data.get(camel, data.get(snake, default))`: the `get_val` helper defined
inside `StressData.from_garmin_response` and `HydrationData.from_garmin_response`
(src/garmer/models/stress.py:104, src/garmer/models/hydration.py:43). -/
def getVal (fs : JObj) (camel snake : String) (dflt : JValue) : JValue :=
  dictGetD fs camel (dictGetD fs snake dflt)

/-- Exception values that arise in the embedded code paths.
`authenticationError` and `sessionExpiredError` are the classes declared in
src/garmer/auth.py:14-23; `garthHTTPError` (which carries an HTTP status) and
`garthException` come from the external `garth` library; the rest model the
builtin exceptions the normalizers can raise (pydantic validation errors are
folded into `validationError`, and `otherError` stands for remaining runtime
errors such as `OverflowError` from `datetime.fromtimestamp`). -/
inductive PyError where
  | authenticationError
  | sessionExpiredError
  | garthHTTPError (status : Nat)
  | garthException
  | attributeError
  | typeError
  | validationError
  | otherError
  deriving Repr, DecidableEq

/-- The exception classes relevant to the embedding, including the common
base class `Exception`. -/
inductive PyClass where
  | exceptionBase
  | authenticationError
  | sessionExpiredError
  | garthException
  | garthHTTPError
  | attributeError
  | typeError
  | validationError
  | otherError
  deriving Repr, DecidableEq

/-- The ancestor list (the class itself up to `Exception`) of each class,
mirroring the declarations `class AuthenticationError(Exception)` and
`class SessionExpiredError(AuthenticationError)` in src/garmer/auth.py, and
`class GarthHTTPError(GarthException)` in the garth library. -/
def PyClass.ancestors : PyClass → List PyClass
  | .exceptionBase => [.exceptionBase]
  | .authenticationError => [.authenticationError, .exceptionBase]
  | .sessionExpiredError =>
      [.sessionExpiredError, .authenticationError, .exceptionBase]
  | .garthException => [.garthException, .exceptionBase]
  | .garthHTTPError => [.garthHTTPError, .garthException, .exceptionBase]
  | .attributeError => [.attributeError, .exceptionBase]
  | .typeError => [.typeError, .exceptionBase]
  | .validationError => [.validationError, .exceptionBase]
  | .otherError => [.otherError, .exceptionBase]

/-- `isinstance(e, cls)` / `issubclass` on the modelled classes. -/
def PyClass.isSubclassOf (c d : PyClass) : Bool := d ∈ c.ancestors

/-- The class of each exception value. -/
def PyError.cls : PyError → PyClass
  | .authenticationError => .authenticationError
  | .sessionExpiredError => .sessionExpiredError
  | .garthHTTPError _ => .garthHTTPError
  | .garthException => .garthException
  | .attributeError => .attributeError
  | .typeError => .typeError
  | .validationError => .validationError
  | .otherError => .otherError

/-- Semantics of a Python `try: body except cls as e: handler(e)` clause:
the handler runs exactly when the raised exception's class is a subclass of
`cls`; other exceptions propagate. -/
def exceptClause {α : Type} (body : Except PyError α) (cls : PyClass)
    (handler : PyError → Except PyError α) : Except PyError α :=
  match body with
  | .ok a => .ok a
  | .error e => if e.cls.isSubclassOf cls then handler e else .error e

/-! ### Timestamps and pydantic-style field validation -/

/-- Range check of `datetime.fromtimestamp` (representable years 1..9999;
the exact platform/timezone-dependent edge is immaterial to the claims,
which stay far inside the range). -/
def fromtimestampOk (s : Rat) : Bool :=
  decide ((-62135596800 : Rat) ≤ s ∧ s < 253402300800)

/-- `datetime.fromtimestamp(s)`: a datetime is modelled as its rational
number of seconds since the epoch, rounded to microseconds as Python does;
out-of-range inputs raise. -/
def pyFromtimestamp (s : Rat) : Except PyError Rat :=
  if fromtimestampOk s then .ok ((round (s * 1000000) : Int) / 1000000)
  else .error .otherError

/-- `parse_garmin_timestamp` (src/garmer/models/base.py:31-41): `None` maps
to `None`; a string is `int()`-parsed, with `ValueError` mapped to `None`;
then the value (milliseconds) is divided by 1000 and fed to
`datetime.fromtimestamp`.  A Python `bool` is an `int`.  Non-numeric values
make the division raise `TypeError`. -/
def parseGarminTimestamp : JValue → Except PyError (Option Rat)
  | .null => .ok none
  | .str s =>
      match s.toInt? with
      | none => .ok none
      | some n => (pyFromtimestamp ((n : Rat) / 1000)).map some
  | .int n => (pyFromtimestamp ((n : Rat) / 1000)).map some
  | .float q => (pyFromtimestamp (q / 1000)).map some
  | .bool b => (pyFromtimestamp ((if b then 1 else 0) / 1000)).map some
  | _ => .error .typeError

/-- pydantic (v2, lax mode) validation of an `int` field: ints pass,
integral floats are coerced, integer-literal strings are coerced; `None`,
bools, and structured values are rejected.  (Whitespace/underscore string
forms are not modelled; no claim exercises them.) -/
def vInt : JValue → Except PyError Int
  | .int n => .ok n
  | .float q => if q.den = 1 then .ok q.num else .error .validationError
  | .str s =>
      match s.toInt? with
      | some n => .ok n
      | none => .error .validationError
  | _ => .error .validationError

/-- Validation of an `int | None` field. -/
def vOptInt : JValue → Except PyError (Option Int)
  | .null => .ok none
  | v => (vInt v).map some

/-- Validation of a `str | None` field (pydantic v2 does not coerce numbers
to strings). -/
def vOptStr : JValue → Except PyError (Option String)
  | .null => .ok none
  | .str s => .ok (some s)
  | _ => .error .validationError

/-- Validation of a `float` field: ints and floats pass; integer-literal
strings are coerced (decimal-string coercion is not modelled; no claim
exercises it). -/
def vFloat : JValue → Except PyError Rat
  | .int n => .ok n
  | .float q => .ok q
  | .str s =>
      match s.toInt? with
      | some n => .ok n
      | none => .error .validationError
  | _ => .error .validationError

/-- Validation of a `float | None` field. -/
def vOptFloat : JValue → Except PyError (Option Rat)
  | .null => .ok none
  | v => (vFloat v).map some

/-! ### Rendering (`model_dump(mode="json")`) helpers -/

/-- Two-digit zero padding. -/
def two (n : Nat) : String :=
  if n < 10 then "0" ++ toString n else toString n

/-- Six-digit zero padding (microseconds). -/
def six (n : Nat) : String :=
  let s := toString n
  String.mk (List.replicate (6 - s.length) '0') ++ s

/-- Days-since-epoch to civil (year, month, day), proleptic Gregorian. -/
def civilFromDays (z0 : Int) : Int × Nat × Nat :=
  let z := z0 + 719468
  let era := z.fdiv 146097
  let doe := (z - era * 146097).toNat
  let yoe := (doe - doe / 1460 + doe / 36524 - doe / 146096) / 365
  let doy := doe - (365 * yoe + yoe / 4 - yoe / 100)
  let mp := (5 * doy + 2) / 153
  let d := doy - (153 * mp + 2) / 5 + 1
  let m := if mp < 10 then mp + 3 else mp - 9
  ((era * 400 + yoe : Int) + (if m ≤ 2 then 1 else 0), m, d)

/-- `datetime.isoformat()` of a modelled datetime (seconds since epoch),
as produced by `model_dump(mode="json")`.  Rendered in UTC; the exact text
is immaterial to the claims — what matters is that it is an ISO date-time
string, which `int()` cannot parse back. -/
def datetimeToIso (t : Rat) : String :=
  let total : Int := ⌊t⌋
  let frac : Rat := t - total
  let days := total.fdiv 86400
  let sod := (total - days * 86400).toNat
  let c := civilFromDays days
  toString c.1 ++ "-" ++ two c.2.1 ++ "-" ++ two c.2.2 ++ "T" ++
    two (sod / 3600) ++ ":" ++ two (sod % 3600 / 60) ++ ":" ++ two (sod % 60) ++
    (if frac = 0 then "" else "." ++ six (frac * 1000000).floor.toNat)

/-- One `exclude_none` entry of a dump: present iff the field is not `None`. -/
def optEntry (k : String) : Option JValue → JObj
  | some v => [(k, v)]
  | none => []

/-! ### Stress models (src/garmer/models/stress.py) -/

/-- `StressSample` (src/garmer/models/stress.py:11-42): one stress
measurement; `stress_level = -1` is the "no measurement" sentinel. -/
structure StressSample where
  timestamp : Option Rat := none
  stress_level : Int := -1
  deriving Repr, DecidableEq

/-- `StressSample.is_valid` (src/garmer/models/stress.py:25-28):
`self.stress_level >= 0`. -/
def StressSample.is_valid (s : StressSample) : Bool :=
  decide (0 ≤ s.stress_level)

/-- `StressSample.from_garmin_response` (src/garmer/models/stress.py:17-23);
the argument is a dict (guarded by `isinstance(sample, dict)` at the call
site). -/
def StressSample.from_garmin_response (fs : JObj) : Except PyError StressSample := do
  let ts ← parseGarminTimestamp (dictGetD fs "timestamp" .null)
  let lvl ← vInt (dictGetD fs "stressLevel" (.int (-1)))
  pure { timestamp := ts, stress_level := lvl }

/-- `model_dump(mode="json", exclude_none=True)` of a `StressSample`
(`GarminBaseModel.to_dict`, src/garmer/models/base.py:18-20): keys are the
snake_case field names, `None` fields omitted, datetimes ISO-rendered. -/
def StressSample.to_dict (s : StressSample) : JValue :=
  .obj (optEntry "timestamp" (s.timestamp.map (fun t => .str (datetimeToIso t))) ++
    [("stress_level", .int s.stress_level)])

/-- `StressData` (src/garmer/models/stress.py:45-80), with the pydantic
defaults of each field. -/
structure StressData where
  calendar_date : Option String := none
  start_timestamp : Option Rat := none
  end_timestamp : Option Rat := none
  overall_stress_level : Option Int := none
  avg_stress_level : Option Int := none
  max_stress_level : Option Int := none
  rest_stress_duration : Int := 0
  low_stress_duration : Int := 0
  medium_stress_duration : Int := 0
  high_stress_duration : Int := 0
  activity_stress_duration : Int := 0
  uncategorized_stress_duration : Int := 0
  body_battery_charged : Option Int := none
  body_battery_drained : Option Int := none
  stress_samples : List StressSample := []
  raw_data : Option JValue := none

/-- The per-element body of the sample loop in
`StressData.from_garmin_response` (src/garmer/models/stress.py:92-101): a
list element of length ≥ 2 becomes a `[timestamp, value]` sample with a
`None` value mapped to `-1`; a dict element goes through
`StressSample.from_garmin_response`; anything else is skipped. -/
def parseStressSamples : List JValue → Except PyError (List StressSample)
  | [] => .ok []
  | .arr (a :: b :: _) :: rest => do
      let ts ← parseGarminTimestamp a
      let lvl ← match b with
        | .null => pure (-1 : Int)
        | v => vInt v
      let tail ← parseStressSamples rest
      pure ({ timestamp := ts, stress_level := lvl } :: tail)
  | .obj fs :: rest => do
      let s ← StressSample.from_garmin_response fs
      let tail ← parseStressSamples rest
      pure (s :: tail)
  | _ :: rest => parseStressSamples rest

/-- `raw_samples = data.get("stressValuesArray", [])` followed by
`if raw_samples: for sample in raw_samples: ...`
(src/garmer/models/stress.py:90-101).  A falsy value skips the loop; a
truthy string or dict iterates over characters/keys, none of which are
lists or dicts, so nothing is collected; a truthy number is not iterable
and raises `TypeError`. -/
def parseStressValuesArray (raw : JValue) : Except PyError (List StressSample) :=
  if raw.truthy then
    match raw with
    | .arr xs => parseStressSamples xs
    | .str _ => .ok []
    | .obj _ => .ok []
    | _ => .error .typeError
  else .ok []

/-- `StressData.from_garmin_response` (src/garmer/models/stress.py:82-128):
parses the sample array, then reads every summary field through the dual
camelCase/snake_case `get_val` helper and validates it.  Calling `.get` on
a non-dict raises `AttributeError`. -/
def StressData.from_garmin_response : JValue → Except PyError StressData
  | .obj fs => do
      let samples ← parseStressValuesArray (dictGetD fs "stressValuesArray" (.arr []))
      let calendarDate ← vOptStr (getVal fs "calendarDate" "calendar_date" .null)
      let startTs ← parseGarminTimestamp
        (getVal fs "startTimestampGMT" "start_timestamp_gmt" .null)
      let endTs ← parseGarminTimestamp
        (getVal fs "endTimestampGMT" "end_timestamp_gmt" .null)
      let overall ← vOptInt (getVal fs "overallStressLevel" "overall_stress_level" .null)
      let avg ← vOptInt (getVal fs "avgStressLevel" "avg_stress_level" .null)
      let maxL ← vOptInt (getVal fs "maxStressLevel" "max_stress_level" .null)
      let rest ← vInt (getVal fs "restStressDuration" "rest_stress_duration" (.int 0))
      let low ← vInt (getVal fs "lowStressDuration" "low_stress_duration" (.int 0))
      let medium ← vInt (getVal fs "mediumStressDuration" "medium_stress_duration" (.int 0))
      let high ← vInt (getVal fs "highStressDuration" "high_stress_duration" (.int 0))
      let activity ← vInt
        (getVal fs "activityStressDuration" "activity_stress_duration" (.int 0))
      let uncategorized ← vInt
        (getVal fs "uncategorizedStressDuration" "uncategorized_stress_duration" (.int 0))
      let bbCharged ← vOptInt
        (getVal fs "bodyBatteryChargedValue" "body_battery_charged_value" .null)
      let bbDrained ← vOptInt
        (getVal fs "bodyBatteryDrainedValue" "body_battery_drained_value" .null)
      pure { calendar_date := calendarDate
             start_timestamp := startTs
             end_timestamp := endTs
             overall_stress_level := overall
             avg_stress_level := avg
             max_stress_level := maxL
             rest_stress_duration := rest
             low_stress_duration := low
             medium_stress_duration := medium
             high_stress_duration := high
             activity_stress_duration := activity
             uncategorized_stress_duration := uncategorized
             body_battery_charged := bbCharged
             body_battery_drained := bbDrained
             stress_samples := samples
             raw_data := some (.obj fs) }
  | _ => .error .attributeError

/-- `GarminBaseModel.to_dict` (src/garmer/models/base.py:18-20) applied to a
`StressData`: `model_dump(mode="json", exclude_none=True)` — snake_case
field-name keys in declaration order, `None` fields omitted, the
`raw_data` field excluded (`exclude=True`), nested samples dumped
recursively. -/
def StressData.to_dict (d : StressData) : JValue :=
  .obj (optEntry "calendar_date" (d.calendar_date.map .str) ++
    optEntry "start_timestamp"
      (d.start_timestamp.map (fun t => .str (datetimeToIso t))) ++
    optEntry "end_timestamp"
      (d.end_timestamp.map (fun t => .str (datetimeToIso t))) ++
    optEntry "overall_stress_level" (d.overall_stress_level.map .int) ++
    optEntry "avg_stress_level" (d.avg_stress_level.map .int) ++
    optEntry "max_stress_level" (d.max_stress_level.map .int) ++
    [("rest_stress_duration", .int d.rest_stress_duration),
     ("low_stress_duration", .int d.low_stress_duration),
     ("medium_stress_duration", .int d.medium_stress_duration),
     ("high_stress_duration", .int d.high_stress_duration),
     ("activity_stress_duration", .int d.activity_stress_duration),
     ("uncategorized_stress_duration", .int d.uncategorized_stress_duration)] ++
    optEntry "body_battery_charged" (d.body_battery_charged.map .int) ++
    optEntry "body_battery_drained" (d.body_battery_drained.map .int) ++
    [("stress_samples", .arr (d.stress_samples.map StressSample.to_dict))])

/-! ### Steps models (src/garmer/models/steps.py) -/

/-- `StepsSample` (src/garmer/models/steps.py:11-27). -/
structure StepsSample where
  start_time : Option Rat := none
  end_time : Option Rat := none
  steps : Int := 0
  activity_type : Option String := none
  deriving Repr, DecidableEq

/-- `StepsSample.from_garmin_response` (src/garmer/models/steps.py:19-27);
a non-dict argument makes `data.get` raise `AttributeError`. -/
def StepsSample.from_garmin_response : JValue → Except PyError StepsSample
  | .obj fs => do
      let st ← parseGarminTimestamp (dictGetD fs "startGMT" .null)
      let en ← parseGarminTimestamp (dictGetD fs "endGMT" .null)
      let steps ← vInt (dictGetD fs "steps" (.int 0))
      let at_ ← vOptStr (dictGetD fs "primaryActivityLevel" .null)
      pure { start_time := st, end_time := en, steps := steps, activity_type := at_ }
  | _ => .error .attributeError

/-- `model_dump(mode="json", exclude_none=True)` of a `StepsSample`. -/
def StepsSample.to_dict (s : StepsSample) : JValue :=
  .obj (optEntry "start_time" (s.start_time.map (fun t => .str (datetimeToIso t))) ++
    optEntry "end_time" (s.end_time.map (fun t => .str (datetimeToIso t))) ++
    [("steps", .int s.steps)] ++
    optEntry "activity_type" (s.activity_type.map .str))

/-- `StepsData` (src/garmer/models/steps.py:30-61), with the pydantic
defaults of each field. -/
structure StepsData where
  calendar_date : Option String := none
  total_steps : Int := 0
  step_goal : Int := 10000
  total_distance_meters : Rat := 0
  highly_active_seconds : Int := 0
  active_seconds : Int := 0
  sedentary_seconds : Int := 0
  sleeping_seconds : Int := 0
  floors_ascended : Int := 0
  floors_descended : Int := 0
  floors_goal : Int := 10
  moderate_intensity_minutes : Int := 0
  vigorous_intensity_minutes : Int := 0
  intensity_minutes_goal : Int := 150
  steps_samples : List StepsSample := []
  raw_data : Option JValue := none

/-- `for sample_data in raw_samples` over `data.get("stepsSamples", [])`
(src/garmer/models/steps.py:67-70).  There is no truthiness guard here: a
non-iterable value raises `TypeError`; iterating a non-empty string or dict
feeds strings to `StepsSample.from_garmin_response`, which raises
`AttributeError` on `.get`. -/
def parseStepsSamples : JValue → Except PyError (List StepsSample)
  | .arr xs => xs.mapM StepsSample.from_garmin_response
  | .str s => if s.isEmpty then .ok [] else .error .attributeError
  | .obj fs => if fs.isEmpty then .ok [] else .error .attributeError
  | _ => .error .typeError

/-- `StepsData.from_garmin_response` (src/garmer/models/steps.py:63-89):
reads camelCase keys only, with the same defaults as the fields. -/
def StepsData.from_garmin_response : JValue → Except PyError StepsData
  | .obj fs => do
      let samples ← parseStepsSamples (dictGetD fs "stepsSamples" (.arr []))
      let calendarDate ← vOptStr (dictGetD fs "calendarDate" .null)
      let totalSteps ← vInt (dictGetD fs "totalSteps" (.int 0))
      let stepGoal ← vInt (dictGetD fs "stepGoal" (.int 10000))
      let distance ← vFloat (dictGetD fs "totalDistanceMeters" (.float 0))
      let highlyActive ← vInt (dictGetD fs "highlyActiveSeconds" (.int 0))
      let active ← vInt (dictGetD fs "activeSeconds" (.int 0))
      let sedentary ← vInt (dictGetD fs "sedentarySeconds" (.int 0))
      let sleeping ← vInt (dictGetD fs "sleepingSeconds" (.int 0))
      let ascended ← vInt (dictGetD fs "floorsAscended" (.int 0))
      let descended ← vInt (dictGetD fs "floorsDescended" (.int 0))
      let floorsGoal ← vInt (dictGetD fs "floorsGoal" (.int 10))
      let moderate ← vInt (dictGetD fs "moderateIntensityMinutes" (.int 0))
      let vigorous ← vInt (dictGetD fs "vigorousIntensityMinutes" (.int 0))
      let intensityGoal ← vInt (dictGetD fs "intensityMinutesGoal" (.int 150))
      pure { calendar_date := calendarDate
             total_steps := totalSteps
             step_goal := stepGoal
             total_distance_meters := distance
             highly_active_seconds := highlyActive
             active_seconds := active
             sedentary_seconds := sedentary
             sleeping_seconds := sleeping
             floors_ascended := ascended
             floors_descended := descended
             floors_goal := floorsGoal
             moderate_intensity_minutes := moderate
             vigorous_intensity_minutes := vigorous
             intensity_minutes_goal := intensityGoal
             steps_samples := samples
             raw_data := some (.obj fs) }
  | _ => .error .attributeError

/-- `GarminBaseModel.to_dict` applied to a `StepsData`: snake_case
field-name keys in declaration order, `None` fields omitted, `raw_data`
excluded. -/
def StepsData.to_dict (d : StepsData) : JValue :=
  .obj (optEntry "calendar_date" (d.calendar_date.map .str) ++
    [("total_steps", .int d.total_steps),
     ("step_goal", .int d.step_goal),
     ("total_distance_meters", .float d.total_distance_meters),
     ("highly_active_seconds", .int d.highly_active_seconds),
     ("active_seconds", .int d.active_seconds),
     ("sedentary_seconds", .int d.sedentary_seconds),
     ("sleeping_seconds", .int d.sleeping_seconds),
     ("floors_ascended", .int d.floors_ascended),
     ("floors_descended", .int d.floors_descended),
     ("floors_goal", .int d.floors_goal),
     ("moderate_intensity_minutes", .int d.moderate_intensity_minutes),
     ("vigorous_intensity_minutes", .int d.vigorous_intensity_minutes),
     ("intensity_minutes_goal", .int d.intensity_minutes_goal),
     ("steps_samples", .arr (d.steps_samples.map StepsSample.to_dict))])

/-- `StepsData.goal_percentage` (src/garmer/models/steps.py:91-96):
`(total_steps / step_goal) * 100.0` when `step_goal > 0`, else `0.0`. -/
def StepsData.goal_percentage (d : StepsData) : Rat :=
  if d.step_goal > 0 then ((d.total_steps : Rat) / (d.step_goal : Rat)) * 100
  else 0

/-- `StepsData.total_intensity_minutes` (src/garmer/models/steps.py:128-131):
`moderate_intensity_minutes + (2 * vigorous_intensity_minutes)`. -/
def StepsData.total_intensity_minutes (d : StepsData) : Int :=
  d.moderate_intensity_minutes + 2 * d.vigorous_intensity_minutes

/-! ### Hydration model (src/garmer/models/hydration.py) -/

/-- `HydrationData` (src/garmer/models/hydration.py:11-33), with the
pydantic defaults of each field. -/
structure HydrationData where
  calendar_date : Option String := none
  total_intake_ml : Int := 0
  goal_ml : Int := 2500
  sweat_loss_ml : Int := 0
  activity_intake_ml : Int := 0
  last_entry_timestamp : Option Rat := none
  raw_data : Option JValue := none

/-- `HydrationData.goal_percentage` (src/garmer/models/hydration.py:80-85):
`(total_intake_ml / goal_ml) * 100.0` when `goal_ml > 0`, else `0.0`. -/
def HydrationData.goal_percentage (d : HydrationData) : Rat :=
  if d.goal_ml > 0 then ((d.total_intake_ml : Rat) / (d.goal_ml : Rat)) * 100
  else 0

/-! ### Sleep models (src/garmer/models/sleep.py) -/

/-- `SleepLevel` (src/garmer/models/sleep.py:12-19). -/
inductive SleepLevel where
  | deep
  | light
  | rem
  | awake
  | unmeasurable
  deriving Repr, DecidableEq

/-- The `level_map` lookup with `UNMEASURABLE` fallback
(src/garmer/models/sleep.py:33-40). -/
def sleepLevelOfString (s : String) : SleepLevel :=
  if s = "deep" then .deep
  else if s = "light" then .light
  else if s = "rem" then .rem
  else if s = "awake" then .awake
  else .unmeasurable

/-- `SleepPhase` (src/garmer/models/sleep.py:22-29). -/
structure SleepPhase where
  start_time : Option Rat := none
  end_time : Option Rat := none
  level : SleepLevel := .unmeasurable
  duration_seconds : Int := 0
  deriving Repr, DecidableEq

/-- `SleepPhase.from_garmin_response` (src/garmer/models/sleep.py:30-47);
`.lower()` on a non-string `sleepLevel` raises `AttributeError`, as does
`.get` on a non-dict argument. -/
def SleepPhase.from_garmin_response : JValue → Except PyError SleepPhase
  | .obj fs => do
      let rawLevel ← match dictGetD fs "sleepLevel" (.str "unmeasurable") with
        | .str s => pure s.toLower
        | _ => Except.error PyError.attributeError
      let st ← parseGarminTimestamp (dictGetD fs "startGMT" .null)
      let en ← parseGarminTimestamp (dictGetD fs "endGMT" .null)
      let dur ← vInt (dictGetD fs "durationInSeconds" (.int 0))
      pure { start_time := st, end_time := en,
             level := sleepLevelOfString rawLevel, duration_seconds := dur }
  | _ => .error .attributeError

/-- `SleepMovement` (src/garmer/models/sleep.py:50-64). -/
structure SleepMovement where
  start_time : Option Rat := none
  end_time : Option Rat := none
  activity_level : Rat := 0
  deriving Repr, DecidableEq

/-- `SleepMovement.from_garmin_response` (src/garmer/models/sleep.py:57-64). -/
def SleepMovement.from_garmin_response : JValue → Except PyError SleepMovement
  | .obj fs => do
      let st ← parseGarminTimestamp (dictGetD fs "startGMT" .null)
      let en ← parseGarminTimestamp (dictGetD fs "endGMT" .null)
      let lvl ← vFloat (dictGetD fs "activityLevel" (.float 0))
      pure { start_time := st, end_time := en, activity_level := lvl }
  | _ => .error .attributeError

/-- `SleepData` (src/garmer/models/sleep.py:67-132), with the pydantic
defaults of each field. -/
structure SleepData where
  sleep_id : Option Int := none
  user_profile_pk : Option Int := none
  calendar_date : Option String := none
  sleep_start : Option Rat := none
  sleep_end : Option Rat := none
  sleep_start_local : Option Rat := none
  sleep_end_local : Option Rat := none
  total_sleep_seconds : Int := 0
  deep_sleep_seconds : Int := 0
  light_sleep_seconds : Int := 0
  rem_sleep_seconds : Int := 0
  awake_seconds : Int := 0
  unmeasurable_seconds : Int := 0
  sleep_score : Option Int := none
  overall_score : Option Int := none
  quality_score : Option Int := none
  recovery_score : Option Int := none
  rem_score : Option Int := none
  light_score : Option Int := none
  deep_score : Option Int := none
  restlessness_score : Option Int := none
  avg_sleep_heart_rate : Option Int := none
  lowest_sleep_heart_rate : Option Int := none
  highest_sleep_heart_rate : Option Int := none
  avg_sleep_respiration : Option Rat := none
  lowest_sleep_respiration : Option Rat := none
  highest_sleep_respiration : Option Rat := none
  avg_spo2 : Option Rat := none
  lowest_spo2 : Option Rat := none
  avg_sleep_stress : Option Rat := none
  avg_hrv : Option Rat := none
  hrv_status : Option String := none
  body_battery_change : Option Int := none
  sleep_phases : List SleepPhase := []
  sleep_movements : List SleepMovement := []
  sleep_feedback : Option String := none
  sleep_need : Option Int := none
  raw_data : Option JValue := none

/-- Iteration of `data.get(key, [])` as in the phase/movement loops of
`SleepData.from_garmin_response` (src/garmer/models/sleep.py:138-147):
no truthiness guard, so a non-iterable raises `TypeError` and iterating a
non-empty string or dict feeds strings to the element parser, which raises
`AttributeError`. -/
def parseSleepList {α : Type} (parse : JValue → Except PyError α) :
    JValue → Except PyError (List α)
  | .arr xs => xs.mapM parse
  | .str s => if s.isEmpty then .ok [] else .error .attributeError
  | .obj fs => if fs.isEmpty then .ok [] else .error .attributeError
  | _ => .error .typeError

/-- `sleep_scores.get(metric, {}).get("value")`
(src/garmer/models/sleep.py:152-157): the inner `.get("value")` raises
`AttributeError` when the per-metric entry is not a dict. -/
def nestedScoreValue (sfs : JObj) (metric : String) : Except PyError JValue :=
  match dictGetD sfs metric (.obj []) with
  | .obj ifs => .ok (dictGetD ifs "value" .null)
  | _ => .error .attributeError

/-- `SleepData.from_garmin_response` (src/garmer/models/sleep.py:134-200):
parses phases and movements, then handles `sleepScores`: when it is a dict
the six scores are taken from the nested `{metric: {value: n}}` map, and
when it is not a dict all six are set to `None`; the remaining fields are
read from their camelCase keys. -/
def SleepData.from_garmin_response : JValue → Except PyError SleepData
  | .obj fs => do
      let phases ← parseSleepList SleepPhase.from_garmin_response
        (dictGetD fs "sleepLevels" (.arr []))
      let movements ← parseSleepList SleepMovement.from_garmin_response
        (dictGetD fs "sleepMovement" (.arr []))
      let scores ← match dictGetD fs "sleepScores" (.obj []) with
        | .obj sfs => do
            let overall ← nestedScoreValue sfs "overall" >>= vOptInt
            let quality ← nestedScoreValue sfs "quality" >>= vOptInt
            let recovery ← nestedScoreValue sfs "recovery" >>= vOptInt
            let rem ← nestedScoreValue sfs "rem" >>= vOptInt
            let light ← nestedScoreValue sfs "light" >>= vOptInt
            let deep ← nestedScoreValue sfs "deep" >>= vOptInt
            pure (overall, quality, recovery, rem, light, deep)
        | _ =>
            pure ((none : Option Int), (none : Option Int), (none : Option Int),
              (none : Option Int), (none : Option Int), (none : Option Int))
      let sleepId ← vOptInt (dictGetD fs "id" .null)
      let profilePk ← vOptInt (dictGetD fs "userProfilePK" .null)
      let calendarDate ← vOptStr (dictGetD fs "calendarDate" .null)
      let sleepStart ← parseGarminTimestamp (dictGetD fs "sleepStartTimestampGMT" .null)
      let sleepEnd ← parseGarminTimestamp (dictGetD fs "sleepEndTimestampGMT" .null)
      let sleepStartLocal ← parseGarminTimestamp
        (dictGetD fs "sleepStartTimestampLocal" .null)
      let sleepEndLocal ← parseGarminTimestamp
        (dictGetD fs "sleepEndTimestampLocal" .null)
      let totalSleep ← vInt (dictGetD fs "sleepTimeSeconds" (.int 0))
      let deepSleep ← vInt (dictGetD fs "deepSleepSeconds" (.int 0))
      let lightSleep ← vInt (dictGetD fs "lightSleepSeconds" (.int 0))
      let remSleep ← vInt (dictGetD fs "remSleepSeconds" (.int 0))
      let awake ← vInt (dictGetD fs "awakeSleepSeconds" (.int 0))
      let unmeasurable ← vInt (dictGetD fs "unmeasurableSleepSeconds" (.int 0))
      let restlessness ← vOptInt (dictGetD fs "restlessnessScore" .null)
      let avgHr ← vOptInt (dictGetD fs "averageSleepHeartRate" .null)
      let lowestHr ← vOptInt (dictGetD fs "lowestSleepHeartRate" .null)
      let highestHr ← vOptInt (dictGetD fs "highestSleepHeartRate" .null)
      let avgResp ← vOptFloat (dictGetD fs "averageSleepRespiration" .null)
      let lowestResp ← vOptFloat (dictGetD fs "lowestSleepRespiration" .null)
      let highestResp ← vOptFloat (dictGetD fs "highestSleepRespiration" .null)
      let avgSpo2 ← vOptFloat (dictGetD fs "averageSpO2" .null)
      let lowestSpo2 ← vOptFloat (dictGetD fs "lowestSpO2" .null)
      let avgStress ← vOptFloat (dictGetD fs "averageSleepStress" .null)
      let avgHrv ← vOptFloat (dictGetD fs "avgSleepHrv" .null)
      let hrvStatus ← vOptStr (dictGetD fs "hrvStatus" .null)
      let bbChange ← vOptInt (dictGetD fs "bodyBatteryChange" .null)
      let feedback ← vOptStr (dictGetD fs "sleepFeedback" .null)
      let need ← vOptInt (dictGetD fs "sleepNeed" .null)
      pure { sleep_id := sleepId
             user_profile_pk := profilePk
             calendar_date := calendarDate
             sleep_start := sleepStart
             sleep_end := sleepEnd
             sleep_start_local := sleepStartLocal
             sleep_end_local := sleepEndLocal
             total_sleep_seconds := totalSleep
             deep_sleep_seconds := deepSleep
             light_sleep_seconds := lightSleep
             rem_sleep_seconds := remSleep
             awake_seconds := awake
             unmeasurable_seconds := unmeasurable
             overall_score := scores.1
             quality_score := scores.2.1
             recovery_score := scores.2.2.1
             rem_score := scores.2.2.2.1
             light_score := scores.2.2.2.2.1
             deep_score := scores.2.2.2.2.2
             restlessness_score := restlessness
             avg_sleep_heart_rate := avgHr
             lowest_sleep_heart_rate := lowestHr
             highest_sleep_heart_rate := highestHr
             avg_sleep_respiration := avgResp
             lowest_sleep_respiration := lowestResp
             highest_sleep_respiration := highestResp
             avg_spo2 := avgSpo2
             lowest_spo2 := lowestSpo2
             avg_sleep_stress := avgStress
             avg_hrv := avgHrv
             hrv_status := hrvStatus
             body_battery_change := bbChange
             sleep_phases := phases
             sleep_movements := movements
             sleep_feedback := feedback
             sleep_need := need
             raw_data := some (.obj fs) }
  | _ => .error .attributeError

/-! ### Session/auth manager (src/garmer/auth.py) -/

/-- `GarminAuth.request` (src/garmer/auth.py:202-242).  State is the
`_is_authenticated` flag; effects are passed in explicitly:
`loadOk` is whether `load_tokens()` would succeed (used by
`ensure_authenticated`, src/garmer/auth.py:152-169, which returns
immediately when already authenticated, otherwise tries to load tokens and
raises `AuthenticationError` when that fails), and `vendorOutcome` is the
result of the underlying `garth` call.  The result is the new flag value
paired with the returned/raised outcome:

* `except GarthHTTPError` with `e.status == 401` clears the flag and raises
  `SessionExpiredError`; any other status is re-raised unchanged;
* `except GarthException` logs and re-raises unchanged;
* any other exception propagates uncaught. -/
def garminAuthRequest (isAuth loadOk : Bool)
    (vendorOutcome : Except PyError JValue) : Bool × Except PyError JValue :=
  if !isAuth && !loadOk then
    (false, .error .authenticationError)
  else
    match vendorOutcome with
    | .ok r => (true, .ok r)
    | .error (.garthHTTPError s) =>
        if s = 401 then (false, .error .sessionExpiredError)
        else (true, .error (.garthHTTPError s))
    | .error e => (true, .error e)

/-! ### Extractor layer (src/garmer/extractors) -/

/-- `StressExtractor.get_for_date` (src/garmer/extractors/stress.py:20-41).
`reqOutcome` is the result of `self._make_request(...)`
(src/garmer/extractors/base.py:50-68: `ensure_authenticated()`, which can
raise `AuthenticationError`, followed by the `garth.connectapi` call, which
can raise transport errors).  The whole body sits in
`try: ... except Exception as e: return None`. -/
def stressGetForDate (reqOutcome : Except PyError JValue) :
    Except PyError (Option StressData) :=
  exceptClause
    (do
      let response ← reqOutcome
      -- `if response and isinstance(response, list) and len(response) > 0:`
      match response with
      | .arr (x :: _) => do
          let d ← StressData.from_garmin_response x
          pure (some d)
      | _ => pure none)
    .exceptionBase (fun _ => .ok none)

/-- `BaseExtractor._date_range_iterator`
(src/garmer/extractors/base.py:119-137): `current = start_date; while
current <= end_date: yield current; current += timedelta(days=1)`.
Calendar dates are modelled by their day ordinal. -/
def dateRangeIterator (start endDate : Nat) : List Nat :=
  if start ≤ endDate then start :: dateRangeIterator (start + 1) endDate else []
termination_by endDate + 1 - start
decreasing_by omega

/-- The loop body of `BaseExtractor.get_for_date_range`
(src/garmer/extractors/base.py:180-188): for each date, `get_for_date` is
called inside `try: ... except Exception: continue`, and a non-`None`
(truthy — entities are objects, hence truthy) result is appended. -/
def fetchRangeLoop {α : Type} (fetch : Nat → Except PyError (Option α)) :
    List Nat → List α
  | [] => []
  | d :: rest =>
      match fetch d with
      | .ok (some x) => x :: fetchRangeLoop fetch rest
      | .ok none => fetchRangeLoop fetch rest
      | .error _ => fetchRangeLoop fetch rest

/-- `BaseExtractor.get_for_date_range` (src/garmer/extractors/base.py:152-190),
with the date arguments already as dates (the string/datetime coercions are
identity on dates). -/
def getForDateRange {α : Type} (fetch : Nat → Except PyError (Option α))
    (startDate endDate : Nat) : List α :=
  fetchRangeLoop fetch (dateRangeIterator startDate endDate)

/-- The dict returned by `StressExtractor.get_stress_stats`
(src/garmer/extractors/stress.py:66-102).  The `stress_data` key is present
only in the non-empty branch, hence `Option`. -/
structure StressStats where
  days_with_data : Nat
  avg_stress_level : Option Rat
  avg_rest_hours : Rat
  avg_high_stress_hours : Rat
  stress_data : Option (List StressData)

/-- Python truthiness filter `[d.avg_stress_level for d in stress_data if
d.avg_stress_level]` (src/garmer/extractors/stress.py:91): `None` and `0`
are falsy and excluded; every other int (including `-1`) is kept. -/
def truthyAvgLevels (ds : List StressData) : List Int :=
  ds.filterMap (fun d =>
    match d.avg_stress_level with
    | some v => if v ≠ 0 then some v else none
    | none => none)

/-- `StressExtractor.get_stress_stats` (src/garmer/extractors/stress.py:66-102),
with the per-date fetch passed in as for `getForDateRange`. -/
def stressGetStressStats (fetch : Nat → Except PyError (Option StressData))
    (startDate endDate : Nat) : StressStats :=
  let stress_data := getForDateRange fetch startDate endDate
  if stress_data.isEmpty then
    { days_with_data := 0
      avg_stress_level := none
      avg_rest_hours := 0
      avg_high_stress_hours := 0
      stress_data := none }
  else
    let avg_levels := truthyAvgLevels stress_data
    let total_rest := (stress_data.map (·.rest_stress_duration)).sum
    let total_high := (stress_data.map (·.high_stress_duration)).sum
    let days := stress_data.length
    { days_with_data := days
      avg_stress_level :=
        if avg_levels.isEmpty then none
        else some ((avg_levels.sum : Rat) / (avg_levels.length : Rat))
      avg_rest_hours :=
        if days ≠ 0 then ((total_rest : Rat) / (days : Rat)) / 3600 else 0
      avg_high_stress_hours :=
        if days ≠ 0 then ((total_high : Rat) / (days : Rat)) / 3600 else 0
      stress_data := some stress_data }

/-! ### Facade client (src/garmer/client.py) -/

/-- The dict built by `GarminClient.get_health_snapshot`
(src/garmer/client.py:424-433): the `date` key plus one key per domain,
each initialized to `None`. -/
structure HealthSnapshot where
  date : String
  daily_summary : Option JValue
  sleep : Option JValue
  heart_rate : Option JValue
  stress : Option JValue
  steps : Option JValue
  hydration : Option JValue
  respiration : Option JValue

/-- The outcome of one domain block of `get_health_snapshot`: the fetch of
the domain's entity followed by the construction of its summary dict —
`Except.error` when any part of the block raised, `.ok none` when the fetch
returned `None` (falsy), `.ok (some v)` when the block computed the dict
`v`. -/
abbrev DomainOutcome := Except PyError (Option JValue)

/-- The per-domain outcomes of one `get_health_snapshot` call. -/
structure DomainOutcomes where
  daily_summary : DomainOutcome
  sleep : DomainOutcome
  heart_rate : DomainOutcome
  stress : DomainOutcome
  steps : DomainOutcome
  hydration : DomainOutcome
  respiration : DomainOutcome

/-- One `try: x = fetch(); if x: snapshot[key] = summarize(x) except
Exception as e: logger.warning(...)` block of `get_health_snapshot`
(src/garmer/client.py:435-515): the entry keeps its initial `None` when the
block raised (every modelled exception class is a subclass of `Exception`)
or when the fetch returned `None`. -/
def domainEntry (o : DomainOutcome) : Option JValue :=
  match exceptClause o .exceptionBase (fun _ => .ok none) with
  | .ok v => v
  | .error _ => none

/-- `GarminClient.get_health_snapshot` (src/garmer/client.py:406-517):
builds the snapshot dict with `str(target_date)` and one entry per domain,
each filled by its own independent try/except block. -/
def getHealthSnapshot (dateStr : String) (o : DomainOutcomes) : HealthSnapshot :=
  { date := dateStr
    daily_summary := domainEntry o.daily_summary
    sleep := domainEntry o.sleep
    heart_rate := domainEntry o.heart_rate
    stress := domainEntry o.stress
    steps := domainEntry o.steps
    hydration := domainEntry o.hydration
    respiration := domainEntry o.respiration }

/-! ### Shared lemmas -/

/-- Every modelled exception class is a subclass of `Exception`, so a bare
`except Exception` handler catches every modelled exception. -/
theorem PyError.cls_subclass_exception (e : PyError) :
    e.cls.isSubclassOf .exceptionBase = true := by
  cases e <;> rfl

/-- A `try/except Exception` whose handler returns normally never raises. -/
theorem exceptClause_exceptionBase_ok {α : Type} (body : Except PyError α)
    (f : PyError → α) :
    ∃ v, exceptClause body .exceptionBase (fun e => .ok (f e)) = .ok v := by
  cases body with
  | ok a => exact ⟨a, rfl⟩
  | error e =>
      exact ⟨f e, by simp [exceptClause, PyError.cls_subclass_exception]⟩

/-! ### Claims -/

/-- Claim C9: `total_intensity_minutes` is `moderate + 2 * vigorous` for
every `StepsData`, and equals 50 at moderate 30 / vigorous 10. -/
theorem garmer_C9_total_intensity_minutes :
    (∀ d : StepsData, d.total_intensity_minutes =
      d.moderate_intensity_minutes + 2 * d.vigorous_intensity_minutes) ∧
    (∀ d : StepsData, d.moderate_intensity_minutes = 30 →
      d.vigorous_intensity_minutes = 10 → d.total_intensity_minutes = 50) := by
  refine ⟨fun d => rfl, fun d h1 h2 => ?_⟩
  simp [StepsData.total_intensity_minutes, h1, h2]

/-- Witness for C9 at a concrete entity. -/
theorem garmer_C9_witness :
    StepsData.total_intensity_minutes
      { moderate_intensity_minutes := 30, vigorous_intensity_minutes := 10 } = 50 :=
  garmer_C9_total_intensity_minutes.2 _ rfl rfl

/-- Claim C7: for steps and hydration, `goal_percentage` is
`100 * actual / goal` when the stored goal is positive and exactly `0`
when the goal is `0`. -/
theorem garmer_C7_goal_percentage :
    (∀ d : StepsData,
      (0 < d.step_goal →
        d.goal_percentage = 100 * (d.total_steps : Rat) / (d.step_goal : Rat)) ∧
      (d.step_goal = 0 → d.goal_percentage = 0)) ∧
    (∀ d : HydrationData,
      (0 < d.goal_ml →
        d.goal_percentage = 100 * (d.total_intake_ml : Rat) / (d.goal_ml : Rat)) ∧
      (d.goal_ml = 0 → d.goal_percentage = 0)) := by
  constructor
  · intro d
    constructor
    · intro h
      rw [StepsData.goal_percentage, if_pos h]
      ring
    · intro h
      rw [StepsData.goal_percentage, if_neg (by omega)]
  · intro d
    constructor
    · intro h
      rw [HydrationData.goal_percentage, if_pos h]
      ring
    · intro h
      rw [HydrationData.goal_percentage, if_neg (by omega)]

/-- Witness for C7 at concrete entities (goal 10000 / actual 5000, and a
zero hydration goal). -/
theorem garmer_C7_witness :
    StepsData.goal_percentage { total_steps := 5000, step_goal := 10000 } =
      100 * (5000 : Rat) / 10000 ∧
    HydrationData.goal_percentage { goal_ml := 0 } = 0 :=
  ⟨(garmer_C7_goal_percentage.1 _).1 (by norm_num),
   (garmer_C7_goal_percentage.2 _).2 rfl⟩

/-- Claim C1: `get_health_snapshot` returns the record with the seven
domain keys, each entry computed from its own domain's outcome alone
(hence independent of failures in other domains), with a raising domain
left absent and the whole call total (never raising). -/
theorem garmer_C1_health_snapshot :
    (∀ (dateStr : String) (o : DomainOutcomes),
      getHealthSnapshot dateStr o =
        { date := dateStr
          daily_summary := domainEntry o.daily_summary
          sleep := domainEntry o.sleep
          heart_rate := domainEntry o.heart_rate
          stress := domainEntry o.stress
          steps := domainEntry o.steps
          hydration := domainEntry o.hydration
          respiration := domainEntry o.respiration }) ∧
    (∀ e : PyError, domainEntry (.error e) = none) ∧
    (∀ v : Option JValue, domainEntry (.ok v) = v) := by
  refine ⟨fun _ _ => rfl, fun e => ?_, fun v => rfl⟩
  simp [domainEntry, exceptClause, PyError.cls_subclass_exception]

/-- Claim C5: an authenticated `GarminAuth.request` hitting a 401 vendor
error clears the flag and raises `SessionExpiredError`, which is a
subclass of `AuthenticationError`; HTTP errors with any other status and
all other errors propagate unchanged with the flag still set. -/
theorem garmer_C5_request_session_expiry :
    ∀ loadOk : Bool,
      garminAuthRequest true loadOk (.error (.garthHTTPError 401)) =
        (false, .error .sessionExpiredError) ∧
      PyClass.isSubclassOf (PyError.sessionExpiredError).cls
        .authenticationError = true ∧
      (∀ s : Nat, s ≠ 401 →
        garminAuthRequest true loadOk (.error (.garthHTTPError s)) =
          (true, .error (.garthHTTPError s))) ∧
      (∀ e : PyError, (∀ s, e ≠ .garthHTTPError s) →
        garminAuthRequest true loadOk (.error e) = (true, .error e)) := by
  intro loadOk
  refine ⟨rfl, rfl, fun s hs => ?_, fun e he => ?_⟩
  · simp [garminAuthRequest, hs]
  · cases e with
    | garthHTTPError s => exact absurd rfl (he s)
    | _ => rfl

/-- Witness for C5: the 401 case, a 500 case, and a non-HTTP transport
error, at concrete inputs. -/
theorem garmer_C5_witness :
    garminAuthRequest true false (.error (.garthHTTPError 401)) =
      (false, .error .sessionExpiredError) ∧
    garminAuthRequest true false (.error (.garthHTTPError 500)) =
      (true, .error (.garthHTTPError 500)) ∧
    garminAuthRequest true false (.error .garthException) =
      (true, .error .garthException) :=
  ⟨(garmer_C5_request_session_expiry false).1,
   (garmer_C5_request_session_expiry false).2.2.1 500 (by decide),
   (garmer_C5_request_session_expiry false).2.2.2 .garthException
     (fun s h => PyError.noConfusion h)⟩

/-- Claim C2 counterexample: an `AuthenticationError` raised during the
fetch (`ensure_authenticated` inside `_make_request`) is caught by the
extractor's bare `except Exception` and converted to `None` — it does not
propagate out of `get_for_date`. -/
theorem garmer_C2_counterexample :
    stressGetForDate (.error .authenticationError) = .ok none ∧
    ∀ e : PyError, stressGetForDate (.error .authenticationError) ≠ .error e := by
  refine ⟨rfl, fun e h => ?_⟩
  rw [show stressGetForDate (.error .authenticationError) = .ok none from rfl] at h
  exact Except.noConfusion h

/-- Claim C2 amended: `get_for_date` returns `None` on every failure —
including authentication failures, which the bare `except Exception`
catches like any other — and never raises. -/
theorem garmer_C2_get_for_date_absorbs_all :
    (∀ e : PyError, stressGetForDate (.error e) = .ok none) ∧
    (∀ r : Except PyError JValue, ∃ v, stressGetForDate r = .ok v) := by
  constructor
  · intro e
    show exceptClause (Except.error e) .exceptionBase (fun _ => .ok none) = .ok none
    simp [exceptClause, PyError.cls_subclass_exception]
  · intro r
    exact exceptClause_exceptionBase_ok _ (fun _ => none)

/-- Claim C8 counterexample: a response carrying the sleep score only as
the flat top-level field `overallScore` parses to a `SleepData` whose
`overall_score` is `None` — the flat field is not read. -/
theorem garmer_C8_counterexample :
    (SleepData.from_garmin_response (.obj [("overallScore", .int 85)])).map
      (·.overall_score) = .ok none ∧
    (Except.ok (none : Option Int) : Except PyError (Option Int)) ≠
      .ok (some 85) := by
  exact ⟨rfl, by simp⟩

/-- The six score fields of a parsed sleep entity, in the order of the six
assignments in src/garmer/models/sleep.py:152-157. -/
def sleepScoreFields (d : SleepData) :
    Option Int × Option Int × Option Int × Option Int × Option Int × Option Int :=
  (d.overall_score, d.quality_score, d.recovery_score, d.rem_score,
   d.light_score, d.deep_score)

/-- Claim C8 amended: when `sleepScores` is a dict the mapper extracts each
nested `{metric: {value: n}}` value into its corresponding score field
(overall, quality, recovery, rem, light, deep); when `sleepScores` is
absent or not a dict, all six score fields are set to `None` — flat
top-level score fields are ignored. -/
theorem garmer_C8_sleep_scores :
    (∀ no nq nr nm nl nd : Int,
      (SleepData.from_garmin_response
        (.obj [("sleepScores", .obj
          [("overall", .obj [("value", .int no)]),
           ("quality", .obj [("value", .int nq)]),
           ("recovery", .obj [("value", .int nr)]),
           ("rem", .obj [("value", .int nm)]),
           ("light", .obj [("value", .int nl)]),
           ("deep", .obj [("value", .int nd)])])])).map sleepScoreFields =
        .ok (some no, some nq, some nr, some nm, some nl, some nd)) ∧
    (∀ m : Int,
      (SleepData.from_garmin_response
        (.obj [("overallScore", .int m), ("qualityScore", .int m),
          ("recoveryScore", .int m), ("remScore", .int m),
          ("lightScore", .int m), ("deepScore", .int m)])).map
        sleepScoreFields = .ok (none, none, none, none, none, none)) ∧
    (∀ k : Int,
      (SleepData.from_garmin_response
        (.obj [("sleepScores", .int k), ("overallScore", .int 85)])).map
        sleepScoreFields = .ok (none, none, none, none, none, none)) := by
  refine ⟨fun no nq nr nm nl nd => rfl, fun m => rfl, fun k => rfl⟩

/-- JSON encoding of one raw `[timestamp, value]` stress pair (value
possibly `null`), used to state C6. -/
def pairJ (p : Int × Option Int) : JValue :=
  .arr [.int p.1, match p.2 with | some n => .int n | none => .null]

/-- The `fromtimestamp` range check holds for any millisecond count of the
years 1 to 9999. -/
theorem fromtimestampOk_ms (n : Int) (h1 : -62135596800000 ≤ n)
    (h2 : n < 253402300800000) : fromtimestampOk ((n : Rat) / 1000) = true := by
  rw [fromtimestampOk, decide_eq_true_iff]
  constructor
  · rw [le_div_iff₀ (by norm_num : (0 : Rat) < 1000)]
    calc (-62135596800 : Rat) * 1000 = ((-62135596800000 : Int) : Rat) := by norm_num
    _ ≤ (n : Rat) := by exact_mod_cast h1
  · rw [div_lt_iff₀ (by norm_num : (0 : Rat) < 1000)]
    calc (n : Rat) < ((253402300800000 : Int) : Rat) := by exact_mod_cast h2
    _ = 253402300800 * 1000 := by norm_num

/-- `datetime.fromtimestamp` is exact on values that are whole
milliseconds. -/
theorem pyFromtimestamp_int (n : Int)
    (h : fromtimestampOk ((n : Rat) / 1000) = true) :
    pyFromtimestamp ((n : Rat) / 1000) = .ok ((n : Rat) / 1000) := by
  rw [pyFromtimestamp, if_pos h]
  congr 1
  have h2 : ((n : Rat) / 1000) * 1000000 = ((n * 1000 : Int) : Rat) := by
    push_cast
    ring
  rw [h2, round_intCast]
  push_cast
  ring

/-- `parse_garmin_timestamp` of an in-range millisecond int. -/
theorem parseGarminTimestamp_int (n : Int)
    (h : fromtimestampOk ((n : Rat) / 1000) = true) :
    parseGarminTimestamp (.int n) = .ok (some ((n : Rat) / 1000)) := by
  show (pyFromtimestamp ((n : Rat) / 1000)).map some = _
  rw [pyFromtimestamp_int n h]
  rfl

/-- Sample loop of `StressData.from_garmin_response` on a list of
`[timestamp, value]` pairs: one sample per pair, `null` values mapped to
the `-1` sentinel. -/
theorem parseStressSamples_pairs (pairs : List (Int × Option Int))
    (h : ∀ p ∈ pairs, fromtimestampOk ((p.1 : Rat) / 1000) = true) :
    parseStressSamples (pairs.map pairJ) =
      .ok (pairs.map (fun p =>
        { timestamp := some ((p.1 : Rat) / 1000),
          stress_level := p.2.getD (-1) })) := by
  induction pairs with
  | nil => rfl
  | cons p rest ih =>
      obtain ⟨t, v⟩ := p
      have ht := h (t, v) (by simp)
      have hrest := ih (fun q hq => h q (by simp [hq]))
      cases v with
      | none =>
          show parseStressSamples (.arr [.int t, .null] :: rest.map pairJ) = _
          simp only [parseStressSamples]
          rw [parseGarminTimestamp_int t ht, hrest]
          rfl
      | some n =>
          show parseStressSamples (.arr [.int t, .int n] :: rest.map pairJ) = _
          simp only [parseStressSamples]
          rw [parseGarminTimestamp_int t ht, hrest]
          rfl

/-- Claim C6: normalizing a raw stress-sample array of `[timestamp, value]`
pairs yields one sample per pair — `null` values map to the `-1` invalid
sentinel instead of being dropped, non-null values are kept with validity
`level ≥ 0` — and the concrete array `[[1000, 20], [2000, null],
[3000, 80]]` yields exactly the three samples with the middle one
invalid. -/
theorem garmer_C6_stress_sample_normalization :
    (∀ pairs : List (Int × Option Int),
      (∀ p ∈ pairs, fromtimestampOk ((p.1 : Rat) / 1000) = true) →
      parseStressValuesArray (.arr (pairs.map pairJ)) =
        .ok (pairs.map (fun p =>
          { timestamp := some ((p.1 : Rat) / 1000),
            stress_level := p.2.getD (-1) }))) ∧
    (∀ s : StressSample, s.is_valid = true ↔ 0 ≤ s.stress_level) ∧
    (StressData.from_garmin_response
        (.obj [("stressValuesArray",
          .arr [.arr [.int 1000, .int 20], .arr [.int 2000, .null],
                .arr [.int 3000, .int 80]])])).map
      (fun d => d.stress_samples.map (fun s => (s, s.is_valid))) =
      .ok [({ timestamp := some 1, stress_level := 20 }, true),
           ({ timestamp := some 2, stress_level := -1 }, false),
           ({ timestamp := some 3, stress_level := 80 }, true)] := by
  refine ⟨fun pairs h => ?_, fun s => ?_, ?_⟩
  · cases pairs with
    | nil => rfl
    | cons p rest =>
        rw [show JValue.arr ((p :: rest).map pairJ) =
          .arr (pairJ p :: rest.map pairJ) from rfl]
        rw [parseStressValuesArray]
        rw [if_pos (by obtain ⟨t, v⟩ := p; cases v <;> rfl)]
        exact parseStressSamples_pairs _ h
  · simp [StressSample.is_valid]
  · have hs := parseStressSamples_pairs
      [(1000, some 20), (2000, none), (3000, some 80)]
      (by
        intro p hp
        fin_cases hp <;>
          exact fromtimestampOk_ms _ (by decide) (by decide))
    simp only [pairJ, List.map_cons, List.map_nil, Option.getD_some,
      Option.getD_none] at hs
    rw [show ((1000 : Int) : Rat) / 1000 = 1 by norm_num,
      show ((2000 : Int) : Rat) / 1000 = 2 by norm_num,
      show ((3000 : Int) : Rat) / 1000 = 3 by norm_num] at hs
    have hsv : parseStressValuesArray
        (.arr [.arr [.int 1000, .int 20], .arr [.int 2000, .null],
               .arr [.int 3000, .int 80]]) =
        .ok [{ timestamp := some 1, stress_level := 20 },
             { timestamp := some 2, stress_level := -1 },
             { timestamp := some 3, stress_level := 80 }] := by
      show parseStressSamples
        [.arr [.int 1000, .int 20], .arr [.int 2000, .null],
         .arr [.int 3000, .int 80]] = _
      exact hs
    simp only [StressData.from_garmin_response]
    rw [show dictGetD
        [("stressValuesArray",
          JValue.arr [.arr [.int 1000, .int 20], .arr [.int 2000, .null],
            .arr [.int 3000, .int 80]])]
        "stressValuesArray" (.arr []) =
        .arr [.arr [.int 1000, .int 20], .arr [.int 2000, .null],
              .arr [.int 3000, .int 80]] from rfl]
    rw [hsv]
    rfl

/-- Witness for C6's quantified part at a concrete two-pair array. -/
theorem garmer_C6_witness :
    parseStressValuesArray
      (.arr ([((1000 : Int), some (20 : Int)), (2000, none)].map pairJ)) =
      .ok (([((1000 : Int), some (20 : Int)), (2000, none)]).map (fun p =>
        ({ timestamp := some ((p.1 : Rat) / 1000),
           stress_level := p.2.getD (-1) } : StressSample))) :=
  garmer_C6_stress_sample_normalization.1 _ (by
    intro p hp
    fin_cases hp <;> exact fromtimestampOk_ms _ (by decide) (by decide))

/-- The while-loop date iterator produces exactly the consecutive range. -/
theorem dateRangeIterator_eq_range'_aux :
    ∀ (n s e : Nat), e + 1 - s = n → dateRangeIterator s e = List.range' s n := by
  intro n
  induction n with
  | zero =>
      intro s e h
      unfold dateRangeIterator
      rw [if_neg (by omega)]
      rfl
  | succ k ih =>
      intro s e h
      unfold dateRangeIterator
      rw [if_pos (by omega), ih (s + 1) e (by omega), List.range'_succ]

/-- `_date_range_iterator start end` is the chronological list of the
`end + 1 - start` consecutive dates from `start`. -/
theorem dateRangeIterator_eq_range' (s e : Nat) :
    dateRangeIterator s e = List.range' s (e + 1 - s) :=
  dateRangeIterator_eq_range'_aux (e + 1 - s) s e rfl

/-- The fetch loop of `get_for_date_range` keeps, in order, exactly the
dates whose fetch returned an entity. -/
theorem fetchRangeLoop_eq_filterMap {α : Type}
    (fetch : Nat → Except PyError (Option α)) (L : List Nat) :
    fetchRangeLoop fetch L = L.filterMap (fun d =>
      match fetch d with
      | .ok (some x) => some x
      | _ => none) := by
  induction L with
  | nil => rfl
  | cons d rest ih =>
      rcases h : fetch d with e | v
      · simp [fetchRangeLoop, List.filterMap_cons, h, ih]
      · cases v with
        | none => simp [fetchRangeLoop, List.filterMap_cons, h, ih]
        | some x => simp [fetchRangeLoop, List.filterMap_cons, h, ih]

/-- Removing one occurrence from a duplicate-free list shortens it by
one. -/
theorem length_filter_ne_of_nodup {a : Nat} :
    ∀ (L : List Nat), L.Nodup → a ∈ L →
      (L.filter (fun d => d ≠ a)).length = L.length - 1 := by
  intro L
  induction L with
  | nil => intro _ h; cases h
  | cons b rest ih =>
      intro hnd hmem
      rw [List.nodup_cons] at hnd
      by_cases hb : b = a
      · subst hb
        rw [List.filter_cons_of_neg (by simp)]
        rw [List.filter_eq_self.mpr (fun x hx => by
          simp only [ne_eq, decide_eq_true_eq]
          intro hxa
          exact hnd.1 (hxa ▸ hx))]
        simp
      · rcases List.mem_cons.mp hmem with h | h
        · exact absurd h.symm hb
        · rw [List.filter_cons_of_pos (by simp [hb])]
          have hlen := ih hnd.2 h
          have : rest.length ≠ 0 := by
            intro h0
            rw [List.length_eq_zero] at h0
            subst h0
            cases h
          simp only [List.length_cons, hlen]
          omega

/-- On a list where every date but `dBad` fetches an entity and `dBad`
fails (absent or exception), the loop returns the good entities in list
order. -/
theorem fetchRangeLoop_one_bad {α : Type}
    (fetch : Nat → Except PyError (Option α)) (dBad : Nat) (v : Nat → α) :
    ∀ L : List Nat,
      (∀ d ∈ L, d ≠ dBad → fetch d = .ok (some (v d))) →
      (fetch dBad = .ok none ∨ ∃ err, fetch dBad = .error err) →
      fetchRangeLoop fetch L = (L.filter (fun d => d ≠ dBad)).map v := by
  intro L
  induction L with
  | nil => intro _ _; rfl
  | cons d rest ih =>
      intro hgood hbad
      have ihr := ih (fun q hq hne => hgood q (List.mem_cons_of_mem d hq) hne) hbad
      by_cases hd : d = dBad
      · subst hd
        rw [List.filter_cons_of_neg (by simp)]
        rcases hbad with hb | ⟨err, hb⟩ <;>
          simp [fetchRangeLoop, hb, ihr]
      · rw [List.filter_cons_of_pos (by simp [hd])]
        simp [fetchRangeLoop, hgood d (List.mem_cons_self d rest) hd, ihr]

/-- Claim C3: `get_for_date_range` visits every calendar date from start to
end inclusive in chronological order (the iterator is exactly the
consecutive range), keeps in order exactly the dates whose single fetch
yielded an entity (absent and failed dates are skipped, never raising),
and over a 7-day window where exactly one date fails it returns the other
6 entities in chronological order. -/
theorem garmer_C3_date_range :
    (∀ s e : Nat, dateRangeIterator s e = List.range' s (e + 1 - s)) ∧
    (∀ {α : Type} (fetch : Nat → Except PyError (Option α)) (s e : Nat),
      getForDateRange fetch s e = (dateRangeIterator s e).filterMap (fun d =>
        match fetch d with
        | .ok (some x) => some x
        | _ => none)) ∧
    (∀ {α : Type} (fetch : Nat → Except PyError (Option α)) (s dBad : Nat)
      (v : Nat → α),
      s ≤ dBad → dBad ≤ s + 6 →
      (∀ d, s ≤ d → d ≤ s + 6 → d ≠ dBad → fetch d = .ok (some (v d))) →
      (fetch dBad = .ok none ∨ ∃ err, fetch dBad = .error err) →
      getForDateRange fetch s (s + 6) =
        ((dateRangeIterator s (s + 6)).filter (fun d => d ≠ dBad)).map v ∧
      (getForDateRange fetch s (s + 6)).length = 6) := by
  refine ⟨dateRangeIterator_eq_range', ?_, ?_⟩
  · intro α fetch s e
    exact fetchRangeLoop_eq_filterMap fetch _
  · intro α fetch s dBad v h1 h2 hgood hbad
    have hrange : dateRangeIterator s (s + 6) = List.range' s 7 := by
      rw [dateRangeIterator_eq_range']
      congr 1
      omega
    have hmem : dBad ∈ List.range' s 7 := by
      rw [List.mem_range'_1]
      omega
    have hmain : getForDateRange fetch s (s + 6) =
        ((dateRangeIterator s (s + 6)).filter (fun d => d ≠ dBad)).map v := by
      rw [getForDateRange]
      refine fetchRangeLoop_one_bad fetch dBad v _ ?_ hbad
      intro d hd hne
      rw [hrange, List.mem_range'_1] at hd
      exact hgood d hd.1 (by omega) hne
    refine ⟨hmain, ?_⟩
    rw [hmain, List.length_map, hrange]
    rw [length_filter_ne_of_nodup _ (List.nodup_range' s 7) hmem]
    simp

/-- Concrete fetch for the C3 witness: date 12 is absent, every other
date yields its own ordinal. -/
def c3fetch : Nat → Except PyError (Option Nat) :=
  fun d => if d = 12 then .ok none else .ok (some d)

/-- Witness for C3 at a concrete 7-day window (10..16) with date 12
failing. -/
theorem garmer_C3_witness :
    getForDateRange c3fetch 10 16 =
      ((dateRangeIterator 10 16).filter (fun d => d ≠ 12)).map (fun d => d) ∧
    (getForDateRange c3fetch 10 16).length = 6 :=
  garmer_C3_date_range.2.2 c3fetch 10 12 (fun d => d) (by omega) (by omega)
    (fun d _ _ hne => by simp [c3fetch, hne])
    (Or.inl (by simp [c3fetch]))

/-- The Python-truthiness comprehension keeps exactly the stored averages
that are neither `None` nor `0`. -/
theorem truthyAvgLevels_eq (ds : List StressData) :
    truthyAvgLevels ds =
      (ds.filterMap (·.avg_stress_level)).filter (fun x => x ≠ 0) := by
  induction ds with
  | nil => rfl
  | cons d rest ih =>
      rcases hv : d.avg_stress_level with _ | v
      · simp [truthyAvgLevels, List.filterMap_cons, hv] at ih ⊢
        exact ih
      · by_cases h0 : v = 0
        · subst h0
          simp [truthyAvgLevels, List.filterMap_cons, hv] at ih ⊢
          exact ih
        · simp [truthyAvgLevels, List.filterMap_cons, hv, h0] at ih ⊢
          exact ih

/-- Claim C10: `get_stress_stats` averages `avg_stress_level` over exactly
the fetched days whose stored average is neither `None` nor `0` (so a
stored `-1` is included, since only `0` and `None` are falsy), and yields
`None` when no day qualifies — including the no-data case. -/
theorem garmer_C10_stress_stats_truthiness :
    ∀ (fetch : Nat → Except PyError (Option StressData)) (s e : Nat),
      (stressGetStressStats fetch s e).avg_stress_level =
        (if (((getForDateRange fetch s e).filterMap
              (·.avg_stress_level)).filter (fun x => x ≠ 0)).isEmpty then none
         else some
          ((((getForDateRange fetch s e).filterMap
              (·.avg_stress_level)).filter (fun x => x ≠ 0)).sum /
            ((((getForDateRange fetch s e).filterMap
              (·.avg_stress_level)).filter (fun x => x ≠ 0)).length : Rat))) := by
  intro fetch s e
  by_cases hempty : (getForDateRange fetch s e).isEmpty = true
  · have h0 : getForDateRange fetch s e = [] := List.isEmpty_iff.mp hempty
    simp only [stressGetStressStats, h0]
    rfl
  · simp only [stressGetStressStats]
    rw [if_neg hempty]
    show (if (truthyAvgLevels (getForDateRange fetch s e)).isEmpty then none
      else some (((truthyAvgLevels (getForDateRange fetch s e)).sum : Rat) /
        ((truthyAvgLevels (getForDateRange fetch s e)).length : Rat))) = _
    rw [truthyAvgLevels_eq]

/-- A steps entity with a non-default step count, for the C4
counterexample. -/
def stepsRT : StepsData := { total_steps := 5000 }

set_option maxHeartbeats 2000000 in
/-- Claim C4 counterexample: serializing a `StepsData` with `to_dict`
(snake_case field-name keys) and re-parsing with `from_garmin_response`
(which reads camelCase keys only) loses the stored step count: 5000 comes
back as the default 0. -/
theorem garmer_C4_counterexample :
    (StepsData.from_garmin_response (StepsData.to_dict stepsRT)).map
      (·.total_steps) = .ok 0 ∧
    stepsRT.total_steps = 5000 := ⟨rfl, rfl⟩

set_option maxHeartbeats 8000000 in
/-- Claim C4 amended: the normalizer/serializer round trip holds only for
entities whose parser probes the snake_case spellings that `to_dict`
emits.  For `StressData` — whose parser reads both casings of every
summary field — an entity with no samples, no timestamps and no
body-battery values (whose dump keys are not probed) re-parses to an
entity with every stored field equal (the `raw_data` cache aside).  For
`StepsData` the round trip fails (see the counterexample). -/
theorem garmer_C4_stress_roundtrip :
    ∀ d : StressData,
      d.stress_samples = [] → d.start_timestamp = none →
      d.end_timestamp = none → d.body_battery_charged = none →
      d.body_battery_drained = none →
      StressData.from_garmin_response (StressData.to_dict d) =
        .ok { d with raw_data := some (StressData.to_dict d) } := by
  intro d h1 h2 h3 h4 h5
  obtain ⟨cd, st, en, ov, av, mx, r1, r2, r3, r4, r5, r6, bb1, bb2, ss, rd⟩ := d
  simp only at h1 h2 h3 h4 h5
  subst h1 h2 h3 h4 h5
  cases cd <;> cases ov <;> cases av <;> cases mx <;> rfl

/-- Witness for the amended C4 at a concrete stress entity. -/
theorem garmer_C4_witness :
    StressData.from_garmin_response
      (StressData.to_dict
        { calendar_date := some "2024-01-01", avg_stress_level := some 42,
          rest_stress_duration := 3600 }) =
      .ok { calendar_date := some "2024-01-01", avg_stress_level := some 42,
            rest_stress_duration := 3600,
            raw_data := some (StressData.to_dict
              { calendar_date := some "2024-01-01", avg_stress_level := some 42,
                rest_stress_duration := 3600 }) } :=
  garmer_C4_stress_roundtrip _ rfl rfl rfl rfl rfl

end Garmer
